import Mathlib

/-!
Result container and propagation constructs of `error.h`.

A shallow embedding of `src/error.h` (the four `Result` specialisations, the
statement-expression macros `try_`, `error`, `verify`, the helper
`error_impl` and the hard-abort reporters) and of the functions `safediv` and
`safedivadd` of `src/main.cpp`, together with the properties proved about them.

Conventions of the embedding:

* `std::variant<Ok, Err>` is a two-case tagged cell (`Variant`); `std::get` on
  the alternative that is not held throws `std::bad_variant_access`, which is
  kept as an explicit outcome (`Eval.throws`).
* Writing to `std::cerr` and calling `exit` are explicit: a call that may do
  either returns a `Run`, the text written plus how the call ended.
* A statement expression that may `return` from the enclosing function is a
  `Flow`: it either yields a value, or makes the enclosing function return.
* A printf-style call site is described by `VaArgs`: the text the formatter
  produces for it, whether the format reads an argument, and whether the
  arguments select the `va_list` overload (a lone null pointer constant). The
  formatters of the C library are `vformat`.
* `int` is 32 bits wide; an `int` operation without a defined result (division
  by zero, a result that is not representable) is the outcome
  `Fault.undefined_behaviour`, so a call that meets one returns no Result.
* `__FILE__` is the parameter `file`; `__LINE__` is the line of the source.
-/

namespace ErrorH

/-! ## Outcomes -/

/-- Abnormal ends of an evaluation other than `exit`. -/
inductive Fault where
  /-- `std::get<T>` was applied to a variant that does not hold a `T`. -/
  | bad_variant_access
  /-- An `assert(...)` evaluated to false. -/
  | assertion_failed
  /-- An `int` operation with no defined result: division by zero, or a
  mathematical result that is not representable in `int`. -/
  | undefined_behaviour
  deriving DecidableEq

/-- Result of evaluating an expression that may throw. -/
inductive Eval (α : Type) where
  | value (a : α)
  | throws (x : Fault)
  deriving DecidableEq

/-- Status passed to `exit` on failure (`<cstdlib>`); `EXIT_SUCCESS` is `0`. -/
def EXIT_FAILURE : Nat := 1

/-- Status of a successful process (`<cstdlib>`). -/
def EXIT_SUCCESS : Nat := 0

/-- How a call ended: it returned a value, the process was terminated by
`exit status`, or an exception left the call. -/
inductive Outcome (α : Type) where
  | ret (a : α)
  | exit (status : Nat)
  | thrown (x : Fault)
  deriving DecidableEq

/-- A finished call: the text it wrote to `std::cerr` and how it ended. -/
structure Run (α : Type) where
  stderr : String
  outcome : Outcome α
  deriving DecidableEq

/-- Text that `std::cerr << x` appends to the stream for `x : α`. -/
class Insertable (α : Type) where
  text : α → String

/-- Inserting a `std::string` writes its characters. -/
instance : Insertable String := ⟨fun s => s⟩

/-- Text written by `<< std::endl`: a newline (then the stream is flushed). -/
def endl : String := "\n"

/-! ## `std::variant<Ok, Err>` -/

/-- Two-alternative `std::variant`: the cell holds the first alternative (`Ok`)
or the second (`Err`). -/
inductive Variant (Ok Err : Type) where
  | first (ok : Ok)
  | second (err : Err)
  deriving DecidableEq

/-- `std::holds_alternative<Ok>(repr)`. -/
def Variant.holds_first {Ok Err : Type} : Variant Ok Err → Bool
  | .first _ => true
  | .second _ => false

/-- `std::holds_alternative<Err>(repr)`. -/
def Variant.holds_second {Ok Err : Type} : Variant Ok Err → Bool
  | .first _ => false
  | .second _ => true

/-- `std::get<Ok>(repr)`: throws when the second alternative is held. -/
def Variant.get_first {Ok Err : Type} : Variant Ok Err → Eval Ok
  | .first v => .value v
  | .second _ => .throws .bad_variant_access

/-- `std::get<Err>(repr)`: throws when the first alternative is held. -/
def Variant.get_second {Ok Err : Type} : Variant Ok Err → Eval Err
  | .first _ => .throws .bad_variant_access
  | .second e => .value e

/-! ## `Result<Ok, Err>` (error.h 50-88) -/

/-- The primary template `Result<Ok, Err>`: one private member `repr`. -/
structure Result (Ok Err : Type) where
  repr : Variant Ok Err
  deriving DecidableEq

/-- Constructor `Result(const Ok& ok) : repr(ok)`. -/
def Result.of_ok {Ok Err : Type} (ok : Ok) : Result Ok Err :=
  { repr := .first ok }

/-- Constructor `Result(const Err& err) : repr(err)`. -/
def Result.of_err {Ok Err : Type} (err : Err) : Result Ok Err :=
  { repr := .second err }

/-- Member `unwrap()` of `Result<Ok, Err>`. -/
def Result.unwrap {Ok Err : Type} [Insertable Err] (r : Result Ok Err) : Run Ok :=
  if r.repr.holds_second then
    match r.repr.get_second with
    | .value e => { stderr := Insertable.text e, outcome := .exit EXIT_FAILURE }
    | .throws x => { stderr := "", outcome := .thrown x }
  else
    match r.repr.get_first with
    | .value v => { stderr := "", outcome := .ret v }
    | .throws x => { stderr := "", outcome := .thrown x }

/-- Member `is_ok()` of `Result<Ok, Err>`. -/
def Result.is_ok {Ok Err : Type} (r : Result Ok Err) : Bool :=
  r.repr.holds_first

/-- Member `is_err()` of `Result<Ok, Err>`. -/
def Result.is_err {Ok Err : Type} (r : Result Ok Err) : Bool :=
  r.repr.holds_second

/-- Member `ok()` of `Result<Ok, Err>`: `std::get<Ok>(repr)`. -/
def Result.ok {Ok Err : Type} (r : Result Ok Err) : Eval Ok :=
  r.repr.get_first

/-- Member `err()` of `Result<Ok, Err>`: `std::get<std::string>(repr)`. The
source names the alternative `std::string`, not `Err`, so the member is the
getter of the error alternative where `Err` is `std::string` (the default of
the template parameter); it is embedded at that instantiation. -/
def Result.err {Ok : Type} (r : Result Ok String) : Eval String :=
  r.repr.get_second

/-- The type `std::string_view`: a view of characters. A `std::string`
converts to it implicitly; it does not convert implicitly to `std::string`. -/
structure string_view where
  chars : String
  deriving DecidableEq

/-- Member `err()` at the instantiation `Result<std::string, std::string_view>`.
There `std::get<std::string>(repr)` names the first alternative, `Ok`, and the
`const Err&` returned is bound to the `std::string_view` converted from the
string read. -/
def Result.err_string_view (r : Result String string_view) : Eval string_view :=
  match r.repr.get_first with
  | .value s => .value { chars := s }
  | .throws x => .throws x

/-! ## `Result<Ok, void>` (error.h 90-126) -/

/-- The specialisation `Result<Ok, void>`: members `_is_ok` and `_ok`. -/
structure ResultOkVoid (Ok : Type) where
  _is_ok : Bool
  _ok : Ok
  deriving DecidableEq

/-- Constructor `Result() : _is_ok(false)`. The member `_ok` has no
initialiser: it is default-constructed for a class type and left indeterminate
for a scalar. `slot` is whatever the member holds after that. -/
def ResultOkVoid.default_ {Ok : Type} (slot : Ok) : ResultOkVoid Ok :=
  { _is_ok := false, _ok := slot }

/-- Constructor `Result(const Ok& ok) : _is_ok(false), _ok(ok)`. -/
def ResultOkVoid.of_ok {Ok : Type} (ok : Ok) : ResultOkVoid Ok :=
  { _is_ok := false, _ok := ok }

/-- Message written by `unwrap()` in the shapes without an error payload. -/
def not_ok_message : String := "Error: Attempted unwrap of not-ok Result!"

/-- Member `unwrap()` of `Result<Ok, void>`. -/
def ResultOkVoid.unwrap {Ok : Type} (r : ResultOkVoid Ok) : Run Ok :=
  if !r._is_ok then
    { stderr := not_ok_message ++ endl, outcome := .exit EXIT_FAILURE }
  else
    { stderr := "", outcome := .ret r._ok }

/-- Member `is_ok()` of `Result<Ok, void>`. -/
def ResultOkVoid.is_ok {Ok : Type} (r : ResultOkVoid Ok) : Bool :=
  r._is_ok

/-- Member `is_err()` of `Result<Ok, void>`. -/
def ResultOkVoid.is_err {Ok : Type} (r : ResultOkVoid Ok) : Bool :=
  !r._is_ok

/-- Member `ok()` of `Result<Ok, void>`. -/
def ResultOkVoid.ok {Ok : Type} (r : ResultOkVoid Ok) : Ok :=
  r._ok

/-! ## `Result<void, Err>` (error.h 128-160) -/

/-- The specialisation `Result<void, Err>`: members `_is_ok` and `_err`. -/
structure ResultVoidErr (Err : Type) where
  _is_ok : Bool
  _err : Err
  deriving DecidableEq

/-- Constructor `Result() : _is_ok(true)`. The member `_err` has no
initialiser: it is default-constructed for a class type (the empty string for
`std::string`) and left indeterminate for a scalar. `slot` is whatever the
member holds after that. -/
def ResultVoidErr.default_ {Err : Type} (slot : Err) : ResultVoidErr Err :=
  { _is_ok := true, _err := slot }

/-- Constructor `Result(const Err& err) : _is_ok(false), _err(err)`. -/
def ResultVoidErr.of_err {Err : Type} (err : Err) : ResultVoidErr Err :=
  { _is_ok := false, _err := err }

/-- Member `unwrap()` of `Result<void, Err>`. -/
def ResultVoidErr.unwrap {Err : Type} [Insertable Err] (r : ResultVoidErr Err) : Run Unit :=
  if !r._is_ok then
    { stderr := Insertable.text r._err, outcome := .exit EXIT_FAILURE }
  else
    { stderr := "", outcome := .ret () }

/-- Member `is_ok()` of `Result<void, Err>`. -/
def ResultVoidErr.is_ok {Err : Type} (r : ResultVoidErr Err) : Bool :=
  r._is_ok

/-- Member `is_err()` of `Result<void, Err>`. -/
def ResultVoidErr.is_err {Err : Type} (r : ResultVoidErr Err) : Bool :=
  !r._is_ok

/-- Member `err()` of `Result<void, Err>`. -/
def ResultVoidErr.err {Err : Type} (r : ResultVoidErr Err) : Err :=
  r._err

/-! ## `Result<void, void>` (error.h 162-186) -/

/-- The specialisation `Result<void, void>`: the member `_is_ok` only. -/
structure ResultVoidVoid where
  _is_ok : Bool
  deriving DecidableEq

/-- Constructor `Result(bool is_ok) : _is_ok(is_ok)`. -/
def ResultVoidVoid.of_bool (is_ok : Bool) : ResultVoidVoid :=
  { _is_ok := is_ok }

/-- Member `unwrap()` of `Result<void, void>`. -/
def ResultVoidVoid.unwrap (r : ResultVoidVoid) : Run Unit :=
  if !r._is_ok then
    { stderr := not_ok_message ++ endl, outcome := .exit EXIT_FAILURE }
  else
    { stderr := "", outcome := .ret () }

/-- Member `is_ok()` of `Result<void, void>`. -/
def ResultVoidVoid.is_ok (r : ResultVoidVoid) : Bool :=
  r._is_ok

/-- Member `is_err()` of `Result<void, void>`. -/
def ResultVoidVoid.is_err (r : ResultVoidVoid) : Bool :=
  !r._is_ok

/-! ## Early return and `try_` (error.h 188-192) -/

/-- Evaluation of a statement inside a function whose return type is `R`: the
statement yields a value and control goes on (`val`), a `return` statement ran
and the enclosing function returns `r` (`ret`), or evaluation ended abnormally
(`fault`). -/
inductive Flow (R α : Type) where
  | val (a : α)
  | ret (r : R)
  | fault (x : Fault)
  deriving DecidableEq

/-- Sequencing `s; rest`: the statements after `s` run only when `s` yields. -/
def Flow.bind {R α β : Type} : Flow R α → (α → Flow R β) → Flow R β
  | .val a, rest => rest a
  | .ret r, _ => .ret r
  | .fault x, _ => .fault x

/-- Return types that `return { std::move(result.err()) };` can build: the
braced `std::string` selects the constructor taking `const Err&` of the
enclosing function's return type. -/
class ErrReturn (R : Type) where
  from_err : String → R

/-- Enclosing return type `Result<W, std::string>`: `Result(const Err&)`. -/
instance {W : Type} : ErrReturn (Result W String) := ⟨fun e => Result.of_err e⟩

/-- Enclosing return type `Result<void, std::string>`: `Result(const Err&)`. -/
instance : ErrReturn (ResultVoidErr String) := ⟨fun e => ResultVoidErr.of_err e⟩

/-- The macro `try_(expression)` inside a function returning `R`. -/
def try_ {R V : Type} [ErrReturn R] (expression : Result V String) : Flow R V :=
  let result := expression
  if result.is_err then
    match result.err with
    | .value e => .ret (ErrReturn.from_err e)
    | .throws x => .fault x
  else
    match result.ok with
    | .value v => .val v
    | .throws x => .fault x

/-! ## Variable arguments and the formatter -/

/-- A `va_list` handed to a formatter. -/
inductive VaList where
  /-- A list started by `va_start` over the arguments passed through the
  ellipsis. -/
  | started
  /-- A null pointer constant converted to `va_list`. -/
  | null
  deriving DecidableEq

/-- The format and the arguments after it at a call site (`__VA_ARGS__`), as
far as the code depends on them. -/
structure VaArgs where
  /-- The text the formatter produces for the format when its conversions read
  the arguments of the call. -/
  message : String
  /-- The format has a conversion that reads an argument. -/
  reads_argument : Bool
  /-- After the format comes exactly one argument, a null pointer constant
  (`0`, `NULL`, `nullptr`). Such an argument converts to `va_list` (a pointer
  to the list's record on x86-64), and a conversion is preferred to the
  ellipsis, so the call selects the overload that takes a `va_list`. -/
  lone_null_constant : Bool
  deriving DecidableEq

/-- A call with a format that has no conversion and no argument after it: the
formatter writes the format. -/
def VaArgs.plain (format : String) : VaArgs :=
  { message := format, reads_argument := false, lone_null_constant := false }

/-- The formatters `vasprintf(&message, err, args)` and
`vfprintf(stderr, fmt, args)` of the C library: they produce the text of the
format, reading the arguments from `args`; reading an argument from a null
`va_list` has undefined behaviour. -/
def vformat (a : VaArgs) : VaList → Eval String
  | .started => .value a.message
  | .null => if a.reads_argument then .throws .undefined_behaviour else .value a.message

/-- The `va_list` that the call `impl(__FILE__, __LINE__, __VA_ARGS__)` hands
to the formatter: a lone null pointer constant selects the `va_list` overload
and is the list itself; any other arguments select the variadic overload, which
starts a list over them with `va_start`. -/
def VaArgs.selected (a : VaArgs) : VaList :=
  if a.lone_null_constant then .null else .started

/-! ## Error construction (error.h 194-221) -/

/-- The body of `error_impl(file, line, err, args)` once `vasprintf` has
stored `message`, the text produced from `err` and `args`. The stream receives
`"Error @ " << file << ':' << line << ": " << message << std::endl`. -/
def error_impl (file : String) (line : Int) (message : String) : ResultVoidErr String :=
  let s : String := "Error @ " ++ file ++ ":" ++ toString line ++ ": " ++ message ++ endl
  ResultVoidErr.of_err s

/-- The overload `error_impl(const char *file, int line, const char *err,
va_list args)` (error.h 200-212). -/
def error_impl_va_list (file : String) (line : Int) (err : VaArgs) (args : VaList) :
    Eval (ResultVoidErr String) :=
  match vformat err args with
  | .value message => .value (error_impl file line message)
  | .throws x => .throws x

/-- The overload `error_impl(const char *file, int line, const char *err, ...)`
(error.h 214-219): `va_start`, then the `va_list` overload. -/
def error_impl_variadic (file : String) (line : Int) (err : VaArgs) :
    Eval (ResultVoidErr String) :=
  error_impl_va_list file line err .started

/-- The call `error_impl(__FILE__, __LINE__, __VA_ARGS__)` of the `error`
statement expression, with its overload resolution. -/
def error_impl_call (file : String) (line : Int) (va_args : VaArgs) :
    Eval (ResultVoidErr String) :=
  if va_args.lone_null_constant then error_impl_va_list file line va_args .null
  else error_impl_variadic file line va_args

/-- The macro `error(...)` expanded at `file`, `line` inside a function
returning `R`. -/
def error {R α : Type} [ErrReturn R] (file : String) (line : Int) (va_args : VaArgs) :
    Flow R α :=
  match error_impl_call file line va_args with
  | .value result =>
    if result.is_err then
      .ret (ErrReturn.from_err result.err)
    else
      .fault .assertion_failed
  | .throws x => .fault x

/-- The macro `verify(condition, ...)` expanded at `file`, `line` inside a
function returning `R`: `if (!(condition)) error(...)`. -/
def verify {R : Type} [ErrReturn R] (condition : Bool) (file : String) (line : Int)
    (va_args : VaArgs) : Flow R Unit :=
  if !condition then error file line va_args else .val ()

/-! ## Hard-abort reporters (error.h 8-48) -/

/-- The run of `here_error_impl(file, line, errfmt, args)` when `vfprintf`
writes `message`: three writes to `stderr`, then `exit(EXIT_FAILURE)`. -/
def here_error_impl {α : Type} (file : String) (line : Nat) (message : String) : Run α :=
  { stderr := "Error @ " ++ file ++ ":" ++ toString line ++ ": " ++ message ++ "\n",
    outcome := .exit EXIT_FAILURE }

/-- The overload `here_error_impl(const char *file, size_t line, const char
*errfmt, va_list args)` (error.h 10-18): the first `fprintf` writes the
location, then `vfprintf` formats. -/
def here_error_impl_va_list {α : Type} (file : String) (line : Nat) (errfmt : VaArgs)
    (args : VaList) : Run α :=
  match vformat errfmt args with
  | .value message => here_error_impl file line message
  | .throws x =>
    { stderr := "Error @ " ++ file ++ ":" ++ toString line ++ ": ", outcome := .thrown x }

/-- The overload `here_error_impl(const char *file, size_t line, const char
*errfmt, ...)` (error.h 20-26): `va_start`, then the `va_list` overload. -/
def here_error_impl_variadic {α : Type} (file : String) (line : Nat) (errfmt : VaArgs) :
    Run α :=
  here_error_impl_va_list file line errfmt .started

/-- The macro `here_error(...)` expanded at `file`, `line`: the call
`here_error_impl(__FILE__, __LINE__, __VA_ARGS__)` with its overload
resolution. -/
def here_error {α : Type} (file : String) (line : Nat) (va_args : VaArgs) : Run α :=
  if va_args.lone_null_constant then here_error_impl_va_list file line va_args .null
  else here_error_impl_variadic file line va_args

/-- The macro `here_verify(condition, ...)` expanded at `file`, `line`:
`if (!(condition)) here_error(...)`. -/
def here_verify (condition : Bool) (file : String) (line : Nat) (va_args : VaArgs) :
    Run Unit :=
  if !condition then here_error file line va_args
  else { stderr := "", outcome := .ret () }

/-- The run of `todo_impl(file, line, fmt, args)` when `vfprintf` writes
`message`. -/
def todo_impl {α : Type} (file : String) (line : Nat) (message : String) : Run α :=
  { stderr := "TODO @ " ++ file ++ ":" ++ toString line ++ ": " ++ message ++ "\n",
    outcome := .exit EXIT_FAILURE }

/-- The overload `todo_impl(const char *file, size_t line, const char *fmt,
va_list args)` (error.h 32-40). -/
def todo_impl_va_list {α : Type} (file : String) (line : Nat) (fmt : VaArgs)
    (args : VaList) : Run α :=
  match vformat fmt args with
  | .value message => todo_impl file line message
  | .throws x =>
    { stderr := "TODO @ " ++ file ++ ":" ++ toString line ++ ": ", outcome := .thrown x }

/-- The overload `todo_impl(const char *file, size_t line, const char *fmt,
...)` (error.h 42-48): `va_start`, then the `va_list` overload. -/
def todo_impl_variadic {α : Type} (file : String) (line : Nat) (fmt : VaArgs) : Run α :=
  todo_impl_va_list file line fmt .started

/-- The macro `todo(...)` expanded at `file`, `line`: the call
`todo_impl(__FILE__, __LINE__, __VA_ARGS__)` with its overload resolution. -/
def todo {α : Type} (file : String) (line : Nat) (va_args : VaArgs) : Run α :=
  if va_args.lone_null_constant then todo_impl_va_list file line va_args .null
  else todo_impl_variadic file line va_args

/-! ## `int` arithmetic and function calls -/

/-- Least value of `int` (32 bits, two's complement). -/
def INT_MIN : Int := -2147483648

/-- Greatest value of `int` (32 bits, two's complement). -/
def INT_MAX : Int := 2147483647

/-- An `int` expression whose mathematical value is `x`: the value when it is
representable, undefined behaviour otherwise. -/
def int_result (x : Int) : Eval Int :=
  if INT_MIN ≤ x ∧ x ≤ INT_MAX then .value x else .throws .undefined_behaviour

/-- The expression `a / b` on `int`: the quotient truncated toward zero. -/
def int_div (a b : Int) : Eval Int :=
  if b = 0 then .throws .undefined_behaviour else int_result (Int.tdiv a b)

/-- The expression `a + b` on `int`. -/
def int_add (a b : Int) : Eval Int :=
  int_result (a + b)

/-- An expression evaluated as a statement of a function body. -/
def Flow.of_eval {R α : Type} : Eval α → Flow R α
  | .value a => .val a
  | .throws x => .fault x

/-- A call of a function whose body ends in a `return` statement: the value of
the call is what the body returned. -/
def Flow.call {R : Type} : Flow R Empty → Eval R
  | .ret r => .value r
  | .fault x => .throws x

/-- The expression `call.unwrap()` where `call` is a call returning a
`Result<V>`. -/
def unwrap_call {V : Type} (call : Eval (Result V String)) : Run V :=
  match call with
  | .value r => r.unwrap
  | .throws x => { stderr := "", outcome := .thrown x }

/-! ## `safediv` and `safedivadd` (main.cpp 7-15) -/

/-- The function `safediv(a, b)`; `file` is the expansion of `__FILE__` in
`main.cpp`, and the `verify` stands on line 8. The format `"Division by zero!"`
has no conversion and no argument follows it. -/
def safediv (file : String) (a b : Int) : Eval (Result Int String) :=
  Flow.call
    ((verify (decide (b ≠ 0)) file 8 (VaArgs.plain "Division by zero!")).bind fun _ =>
      (Flow.of_eval (int_div a b)).bind fun q =>
        Flow.ret (Result.of_ok q))

/-- The function `safedivadd(a, b, c)`. -/
def safedivadd (file : String) (a b c : Int) : Eval (Result Int String) :=
  Flow.call
    (((Flow.of_eval (safediv file a b)).bind fun r => try_ r).bind fun ab =>
      (Flow.of_eval (int_add ab c)).bind fun s =>
        Flow.ret (Result.of_ok s))

/-! ## Predicates on diagnostic text -/

/-- The text `s` contains the text `t`. -/
def contains_text (s t : String) : Prop :=
  ∃ pre post : String, s = pre ++ t ++ post

/-- The text is exactly one line: it ends with a line terminator and has no
other one. -/
def one_line (s : String) : Bool :=
  s.data.getLast? == some '\n' && s.data.count '\n' == 1

/-! ## Discriminant queries and construction -/

/-- C1: success construction marks ok and error construction marks err in the
two-payload shape; in the (unit, E) shape the default-constructed Result is ok
(whatever its error member holds) and the Result built from an error is err; in the (unit, unit) shape
`Result(b)` has `is_ok() = b`. -/
theorem C1_constructors_set_discriminant {V E : Type} (v : V) (e slot : E)
    (b : Bool) :
    ((Result.of_ok v : Result V E).is_ok = true ∧
      (Result.of_ok v : Result V E).is_err = false) ∧
    ((Result.of_err e : Result V E).is_ok = false ∧
      (Result.of_err e : Result V E).is_err = true) ∧
    (ResultVoidErr.default_ slot).is_ok = true ∧
    (ResultVoidErr.of_err e).is_err = true ∧
    (ResultVoidVoid.of_bool b).is_ok = b := by
  refine ⟨⟨rfl, rfl⟩, ⟨rfl, rfl⟩, rfl, rfl, rfl⟩

/-- C2: in each of the four shapes, whatever the member state, `is_err()` is
the negation of `is_ok()`, so exactly one of the two queries is true. -/
theorem C2_is_err_eq_not_is_ok {V E : Type} (r : Result V E) (q : ResultOkVoid V)
    (u : ResultVoidErr E) (w : ResultVoidVoid) :
    r.is_err = !r.is_ok ∧ q.is_err = !q.is_ok ∧ u.is_err = !u.is_ok ∧
      w.is_err = !w.is_ok := by
  refine ⟨?_, rfl, rfl, rfl⟩
  cases r with
  | mk repr => cases repr <;> rfl

/-- Construction followed by extraction gives back the value: `ok()` after the
success constructor in the (V, E) and (V, unit) shapes, `err()` after the
error constructor in the (V, E) shape at `Err = std::string` and in the
(unit, E) shape. -/
theorem construct_then_extract {V E : Type} (v : V) (s : String) (e : E) :
    (Result.of_ok v : Result V E).ok = Eval.value v ∧
    (ResultOkVoid.of_ok v).ok = v ∧
    (Result.of_err s : Result V String).err = Eval.value s ∧
    (ResultVoidErr.of_err e).err = e :=
  ⟨rfl, rfl, rfl, rfl⟩

/-- C3 at the failing input: the `Result<std::string, std::string_view>` built
from the error value `boom` is err, but `err()` on it does not return `boom`.
The member reads `std::get<std::string>(repr)`, which names the success
alternative there; that alternative is not held, so the call throws
`std::bad_variant_access`. On the Result built from the success value `fine`
the same member returns a view of the success value. -/
theorem C3_err_reads_std_string_alternative :
    (Result.of_err { chars := "boom" } : Result String string_view).is_err = true ∧
    (Result.of_err { chars := "boom" } : Result String string_view).err_string_view =
      Eval.throws Fault.bad_variant_access ∧
    (Result.of_err { chars := "boom" } : Result String string_view).err_string_view ≠
      Eval.value { chars := "boom" } ∧
    (Result.of_ok "fine" : Result String string_view).is_ok = true ∧
    (Result.of_ok "fine" : Result String string_view).err_string_view =
      Eval.value { chars := "fine" } := by
  decide

/-! ## `unwrap` -/

/-- In the two-payload shape an ok Result holds a success value. -/
theorem Result.exists_first_of_is_ok {V E : Type} (r : Result V E)
    (h : r.is_ok = true) : ∃ v, r.repr = Variant.first v := by
  cases r with
  | mk repr =>
    cases repr with
    | first v => exact ⟨v, rfl⟩
    | second e => simp [Result.is_ok, Variant.holds_first] at h

/-- In the two-payload shape an err Result holds an error value. -/
theorem Result.exists_second_of_is_err {V E : Type} (r : Result V E)
    (h : r.is_err = true) : ∃ e, r.repr = Variant.second e := by
  cases r with
  | mk repr =>
    cases repr with
    | first v => simp [Result.is_err, Variant.holds_second] at h
    | second e => exact ⟨e, rfl⟩

/-- C4: `unwrap()` on an ok Result returns normally, writes nothing to
`std::cerr` and does not call `exit`. In the (V, E) shape the value returned is
the stored success value, the one `ok()` reads, and the one the Result was
constructed from; in the (unit, E) and (unit, unit) shapes the call just
returns. The last conjunct is the body of `unwrap()` of the (V, unit) shape on
a member state with `_is_ok` set: it returns `_ok` (neither constructor of
that shape produces such a state). -/
theorem C4_unwrap_ok_returns_value {V E : Type} [Insertable E] (r : Result V E)
    (u : ResultVoidErr E) (w : ResultVoidVoid) (v₀ : V)
    (hr : r.is_ok = true) (hu : u.is_ok = true) (hw : w.is_ok = true) :
    (∃ v, r.ok = Eval.value v ∧ r.unwrap = { stderr := "", outcome := Outcome.ret v }) ∧
    (Result.of_ok v₀ : Result V E).unwrap = { stderr := "", outcome := Outcome.ret v₀ } ∧
    u.unwrap = { stderr := "", outcome := Outcome.ret () } ∧
    w.unwrap = { stderr := "", outcome := Outcome.ret () } ∧
    (∀ q : ResultOkVoid V, q.is_ok = true →
      q.unwrap = { stderr := "", outcome := Outcome.ret q.ok }) := by
  refine ⟨?_, rfl, ?_, ?_, ?_⟩
  · obtain ⟨v, hv⟩ := Result.exists_first_of_is_ok r hr
    refine ⟨v, ?_, ?_⟩
    · simp [Result.ok, hv, Variant.get_first]
    · simp [Result.unwrap, hv, Variant.holds_second, Variant.get_first]
  · have h : u._is_ok = true := hu
    simp [ResultVoidErr.unwrap, h]
  · have h : w._is_ok = true := hw
    simp [ResultVoidVoid.unwrap, h]
  · intro q hq
    have h : q._is_ok = true := hq
    simp [ResultOkVoid.unwrap, ResultOkVoid.ok, h]

/-- Witness of C4 at `Result<int>(7)`, the default-constructed
`Result<void>` and `Result<void, void>(true)`. -/
theorem C4_unwrap_ok_returns_value_witness :
    (Result.of_ok 7 : Result Int String).is_ok = true ∧
    (ResultVoidErr.default_ "").is_ok = true ∧
    (ResultVoidVoid.of_bool true).is_ok = true ∧
    (Result.of_ok 7 : Result Int String).unwrap =
      { stderr := "", outcome := Outcome.ret 7 } ∧
    (ResultVoidErr.default_ "").unwrap =
      { stderr := "", outcome := Outcome.ret () } ∧
    (ResultVoidVoid.of_bool true).unwrap = { stderr := "", outcome := Outcome.ret () } :=
  have h := C4_unwrap_ok_returns_value (Result.of_ok 7 : Result Int String)
    (ResultVoidErr.default_ "") (ResultVoidVoid.of_bool true) 7
    rfl rfl rfl
  ⟨rfl, rfl, rfl, h.2.1, h.2.2.1, h.2.2.2.1⟩

/-- C5: `unwrap()` on an err Result does not return: it ends in
`exit(EXIT_FAILURE)`, a failure status. What it wrote to `std::cerr` is the
stored error payload in the (V, E) and (unit, E) shapes (for a `std::string`
payload, its characters), and the generic message followed by a newline in the
(V, unit) and (unit, unit) shapes. -/
theorem C5_unwrap_err_exits {V E : Type} [Insertable E] (r : Result V E)
    (rs : Result V String) (q : ResultOkVoid V) (u : ResultVoidErr E)
    (us : ResultVoidErr String) (w : ResultVoidVoid)
    (hr : r.is_err = true) (hrs : rs.is_err = true) (hq : q.is_err = true)
    (hu : u.is_err = true) (hus : us.is_err = true) (hw : w.is_err = true) :
    (∃ e, r.repr = Variant.second e ∧
      r.unwrap = { stderr := Insertable.text e, outcome := Outcome.exit EXIT_FAILURE }) ∧
    (∃ s, rs.err = Eval.value s ∧
      rs.unwrap = { stderr := s, outcome := Outcome.exit EXIT_FAILURE }) ∧
    q.unwrap = { stderr := "Error: Attempted unwrap of not-ok Result!\n",
                 outcome := Outcome.exit EXIT_FAILURE } ∧
    u.unwrap = { stderr := Insertable.text u.err, outcome := Outcome.exit EXIT_FAILURE } ∧
    us.unwrap = { stderr := us.err, outcome := Outcome.exit EXIT_FAILURE } ∧
    w.unwrap = { stderr := "Error: Attempted unwrap of not-ok Result!\n",
                 outcome := Outcome.exit EXIT_FAILURE } ∧
    EXIT_FAILURE ≠ EXIT_SUCCESS := by
  refine ⟨?_, ?_, ?_, ?_, ?_, ?_, by decide⟩
  · obtain ⟨e, he⟩ := Result.exists_second_of_is_err r hr
    exact ⟨e, he, by simp [Result.unwrap, he, Variant.holds_second, Variant.get_second]⟩
  · obtain ⟨s, hs⟩ := Result.exists_second_of_is_err rs hrs
    refine ⟨s, by simp [Result.err, hs, Variant.get_second], ?_⟩
    simp [Result.unwrap, hs, Variant.holds_second, Variant.get_second, Insertable.text]
  · have h : q._is_ok = false := by simpa [ResultOkVoid.is_err] using hq
    simp [ResultOkVoid.unwrap, h, not_ok_message, endl]
  · have h : u._is_ok = false := by simpa [ResultVoidErr.is_err] using hu
    simp [ResultVoidErr.unwrap, ResultVoidErr.err, h]
  · have h : us._is_ok = false := by simpa [ResultVoidErr.is_err] using hus
    simp [ResultVoidErr.unwrap, ResultVoidErr.err, h, Insertable.text]
  · have h : w._is_ok = false := by simpa [ResultVoidVoid.is_err] using hw
    simp [ResultVoidVoid.unwrap, h, not_ok_message, endl]

/-- Witness of C5 at `Result<int>("boom")`, the default-constructed
`Result<int, void>`, `Result<void>("boom")` and `Result<void, void>(false)`. -/
theorem C5_unwrap_err_exits_witness :
    (Result.of_err "boom" : Result Int String).is_err = true ∧
    (ResultOkVoid.default_ (0 : Int)).is_err = true ∧
    (ResultVoidErr.of_err "boom").is_err = true ∧
    (ResultVoidVoid.of_bool false).is_err = true ∧
    (ResultOkVoid.default_ (0 : Int)).unwrap =
      { stderr := "Error: Attempted unwrap of not-ok Result!\n",
        outcome := Outcome.exit EXIT_FAILURE } ∧
    (ResultVoidErr.of_err "boom").unwrap =
      { stderr := "boom", outcome := Outcome.exit EXIT_FAILURE } ∧
    (ResultVoidVoid.of_bool false).unwrap =
      { stderr := "Error: Attempted unwrap of not-ok Result!\n",
        outcome := Outcome.exit EXIT_FAILURE } ∧
    (∃ s, (Result.of_err "boom" : Result Int String).err = Eval.value s ∧
      (Result.of_err "boom" : Result Int String).unwrap =
        { stderr := s, outcome := Outcome.exit EXIT_FAILURE }) :=
  have h := C5_unwrap_err_exits (Result.of_err "boom" : Result Int String)
    (Result.of_err "boom" : Result Int String) (ResultOkVoid.default_ (0 : Int))
    (ResultVoidErr.of_err "boom") (ResultVoidErr.of_err "boom")
    (ResultVoidVoid.of_bool false) rfl rfl rfl rfl rfl rfl
  ⟨rfl, rfl, rfl, rfl, h.2.2.1, h.2.2.2.2.1, h.2.2.2.2.2.1, h.2.1⟩

/-! ## Propagation: `try_` -/

/-- C6: when the inner Result is ok with value `v`, `try_` yields `v` and the
statements after it run: the body `x = try_(r); rest(x)` evaluates as
`rest(v)`, in every enclosing return type. -/
theorem C6_try_ok_yields_value {R V β : Type} [ErrReturn R] (r : Result V String)
    (v : V) (rest : V → Flow R β) (hok : r.is_ok = true) (hv : r.ok = Eval.value v) :
    (try_ r : Flow R V) = Flow.val v ∧ (try_ r).bind rest = rest v := by
  obtain ⟨v', hv'⟩ := Result.exists_first_of_is_ok r hok
  have hvv : v' = v := by
    simpa [Result.ok, hv', Variant.get_first] using hv
  subst hvv
  have ht : (try_ r : Flow R V) = Flow.val v' := by
    simp [try_, Result.is_err, Result.ok, hv', Variant.holds_second, Variant.get_first]
  exact ⟨ht, by rw [ht]; rfl⟩

/-- Witness of C6: inner Result `Result<int>(0)`, the rest of the body
`return ab + 1;` in a function returning `Result<int>`. -/
theorem C6_try_ok_yields_value_witness :
    (Result.of_ok 0 : Result Int String).is_ok = true ∧
    (Result.of_ok 0 : Result Int String).ok = Eval.value 0 ∧
    (try_ (Result.of_ok 0 : Result Int String)).bind
        (fun ab => (Flow.ret (Result.of_ok (ab + 1)) : Flow (Result Int String) Unit)) =
      Flow.ret (Result.of_ok 1) :=
  ⟨rfl, rfl,
    (C6_try_ok_yields_value (Result.of_ok 0 : Result Int String) 0
      (fun ab => (Flow.ret (Result.of_ok (ab + 1)) : Flow (Result Int String) Unit))
      rfl rfl).2⟩

/-- C7: when the inner Result is an error with payload `e`, the body
`x = try_(r); rest(x)` makes the enclosing function return, whatever `rest`
is, a Result of the enclosing function's shape (`Result<W, std::string>` or
`Result<void, std::string>`) that is err and whose `err()` is `e`. -/
theorem C7_try_err_returns_same_payload {W V β : Type} (r : Result V String)
    (e : String) (he : r.is_err = true) (hp : r.err = Eval.value e) :
    (∃ res : Result W String,
      (∀ rest : V → Flow (Result W String) β, (try_ r).bind rest = Flow.ret res) ∧
      res.is_err = true ∧ res.is_ok = false ∧ res.err = Eval.value e) ∧
    (∃ res : ResultVoidErr String,
      (∀ rest : V → Flow (ResultVoidErr String) β, (try_ r).bind rest = Flow.ret res) ∧
      res.is_err = true ∧ res.is_ok = false ∧ res.err = e) := by
  obtain ⟨e', he'⟩ := Result.exists_second_of_is_err r he
  have hee : e' = e := by
    simpa [Result.err, he', Variant.get_second] using hp
  subst hee
  constructor
  · refine ⟨Result.of_err e', ?_, rfl, rfl, rfl⟩
    intro rest
    simp [try_, Result.is_err, Result.err, he', Variant.holds_second, Variant.get_second,
      Flow.bind, ErrReturn.from_err]
  · refine ⟨ResultVoidErr.of_err e', ?_, rfl, rfl, rfl⟩
    intro rest
    simp [try_, Result.is_err, Result.err, he', Variant.holds_second, Variant.get_second,
      Flow.bind, ErrReturn.from_err]

/-- Witness of C7: inner Result `Result<int>("boom")`. -/
theorem C7_try_err_returns_same_payload_witness :
    (Result.of_err "boom" : Result Int String).is_err = true ∧
    (Result.of_err "boom" : Result Int String).err = Eval.value "boom" ∧
    (∃ res : Result Int String,
      (∀ rest : Int → Flow (Result Int String) Unit,
        (try_ (Result.of_err "boom" : Result Int String)).bind rest = Flow.ret res) ∧
      res.is_err = true ∧ res.is_ok = false ∧ res.err = Eval.value "boom") :=
  ⟨rfl, rfl,
    (C7_try_err_returns_same_payload (Result.of_err "boom" : Result Int String) "boom"
      rfl rfl).1⟩

/-! ## Error construction: `error_impl`, `error`, `verify` -/

/-- C8 as stated fails: for `error_impl("main.cpp", 8, "Division by zero!")`
the payload is not the text `Error @ main.cpp:8: Division by zero!`; it has
one more character, the newline of `std::endl`. -/
theorem C8_payload_has_newline_counterexample :
    (error_impl "main.cpp" 8 "Division by zero!").err ≠
      "Error @ " ++ "main.cpp" ++ ":" ++ toString (8 : Int) ++ ": " ++ "Division by zero!" := by
  decide

/-- The call of `error_impl` in the `error` statement expression runs the
`va_list` overload on the list the call selects. -/
theorem error_impl_call_eq (f : String) (n : Int) (va : VaArgs) :
    error_impl_call f n va = error_impl_va_list f n va va.selected := by
  cases h : va.lone_null_constant <;> simp [error_impl_call, error_impl_variadic,
    VaArgs.selected, h]

/-- When the formatter produces `m` for the call, `error` makes the enclosing
function return the error Result carrying the payload of `error_impl`. -/
theorem error_of_formatted {R α : Type} [ErrReturn R] (f : String) (n : Int) (va : VaArgs)
    (m : String) (hcall : vformat va va.selected = Eval.value m) :
    (error f n va : Flow R α) = Flow.ret (ErrReturn.from_err (error_impl f n m).err) := by
  have h : error_impl_call f n va = Eval.value (error_impl f n m) := by
    rw [error_impl_call_eq]
    simp [error_impl_va_list, hcall]
  simp only [error, h]
  rfl

/-- C8 amended: for every file name, line number and formatted message (the
text the formatter produced for the call), `error_impl` returns an error
Result whose payload is the text `Error @ <file>:<line>: <message>` followed
by a newline, and the `error` statement expression makes the enclosing
function return a Result with that payload. -/
theorem C8_error_impl_payload {W α : Type} (f : String) (n : Int) (m : String)
    (va : VaArgs) (args : VaList) (hargs : vformat va args = Eval.value m)
    (hcall : vformat va va.selected = Eval.value m) :
    (error_impl f n m).is_err = true ∧
    (error_impl f n m).err = "Error @ " ++ f ++ ":" ++ toString n ++ ": " ++ m ++ "\n" ∧
    error_impl_va_list f n va args = Eval.value (error_impl f n m) ∧
    (error f n va : Flow (Result W String) α) =
      Flow.ret (Result.of_err ("Error @ " ++ f ++ ":" ++ toString n ++ ": " ++ m ++ "\n")) ∧
    (error f n va : Flow (ResultVoidErr String) α) =
      Flow.ret (ResultVoidErr.of_err
        ("Error @ " ++ f ++ ":" ++ toString n ++ ": " ++ m ++ "\n")) := by
  refine ⟨rfl, rfl, ?_, ?_, ?_⟩
  · simp [error_impl_va_list, hargs]
  · rw [error_of_formatted f n va m hcall]
    rfl
  · rw [error_of_formatted f n va m hcall]
    rfl

/-- Witness of C8 amended: the call `error("Division by zero!")` at
`main.cpp:8`. -/
theorem C8_error_impl_payload_witness :
    vformat (VaArgs.plain "Division by zero!") VaList.started =
      Eval.value "Division by zero!" ∧
    vformat (VaArgs.plain "Division by zero!") (VaArgs.plain "Division by zero!").selected =
      Eval.value "Division by zero!" ∧
    (error "main.cpp" 8 (VaArgs.plain "Division by zero!") : Flow (Result Int String) Unit) =
      Flow.ret (Result.of_err "Error @ main.cpp:8: Division by zero!\n") :=
  ⟨rfl, rfl,
    (C8_error_impl_payload "main.cpp" 8 "Division by zero!"
      (VaArgs.plain "Division by zero!") VaList.started rfl rfl).2.2.2.1⟩

/-- The body `verify(c, ...); rest` evaluates as `rest` when `c` is true; when
`c` is false and the formatter produces `m` for the call, it makes the
enclosing function return, whatever `rest` is, the error Result whose payload
is the one `error_impl` builds for `m` at the file and line of the `verify`. -/
theorem verify_guard_of_formatted {R β : Type} [ErrReturn R] (c : Bool) (f : String)
    (n : Int) (va : VaArgs) (m : String) (hcall : vformat va va.selected = Eval.value m)
    (rest : Flow R β) :
    (verify c f n va).bind (fun _ => rest) =
      if c then rest else Flow.ret (ErrReturn.from_err (error_impl f n m).err) := by
  cases c
  · simp only [verify, Bool.not_false, if_true]
    rw [error_of_formatted f n va m hcall]
    rfl
  · rfl

/-- C9 at the failing input: the body `verify(false, "value %d", 0); return 1;`
of a function returning `Result<int>`, at `main.cpp:8`. The lone `0` is a null
pointer constant, so the call inside `error` selects the `va_list` overload of
`error_impl` and the formatter reads an argument from a null list: the body
returns no Result, where the claim has the error Result with the payload
`error_impl` builds for the message `value 0`. With a true condition the same
body returns `1`. -/
theorem C9_verify_lone_null_returns_no_result :
    ((verify false "main.cpp" 8
        { message := "value 0", reads_argument := true, lone_null_constant := true }).bind
      (fun _ => (Flow.ret (Result.of_ok 1) : Flow (Result Int String) Empty))) =
      Flow.fault Fault.undefined_behaviour ∧
    ((verify false "main.cpp" 8
        { message := "value 0", reads_argument := true, lone_null_constant := true }).bind
      (fun _ => (Flow.ret (Result.of_ok 1) : Flow (Result Int String) Empty))) ≠
      Flow.ret (Result.of_err (error_impl "main.cpp" 8 "value 0").err) ∧
    ((verify true "main.cpp" 8
        { message := "value 0", reads_argument := true, lone_null_constant := true }).bind
      (fun _ => (Flow.ret (Result.of_ok 1) : Flow (Result Int String) Empty))) =
      Flow.ret (Result.of_ok 1) := by
  decide

/-! ## The success constructor of `Result<Ok, void>` -/

/-- C10 at the failing input: `Result<int, void>(5)` stores `5` but reads back
as failed: `is_ok()` is false, `is_err()` is true, and `unwrap()` writes the
generic message and exits instead of returning `5`. -/
theorem C10_value_constructor_marks_failed :
    (ResultOkVoid.of_ok (5 : Int)).is_ok = false ∧
    (ResultOkVoid.of_ok (5 : Int)).is_err = true ∧
    (ResultOkVoid.of_ok (5 : Int)).ok = 5 ∧
    (ResultOkVoid.of_ok (5 : Int)).unwrap =
      { stderr := "Error: Attempted unwrap of not-ok Result!\n",
        outcome := Outcome.exit EXIT_FAILURE } ∧
    (ResultOkVoid.of_ok (5 : Int)).unwrap ≠ { stderr := "", outcome := Outcome.ret 5 } := by
  refine ⟨rfl, rfl, rfl, by decide, by decide⟩

/-! ## `Result<Ok, void>` as implemented -/

/-- C11: every Result of the (V, unit) shape reads back as failed. For the
default-constructed Result (whatever its value member holds) and for the
Result built from any success value,
`is_ok()` is false and `is_err()` is true, and `unwrap()` does not return: it
writes the generic not-ok message and ends in `exit(EXIT_FAILURE)`. -/
theorem C11_value_shape_always_failed {V : Type} (slot v : V) :
    ((ResultOkVoid.default_ slot).is_ok = false ∧
      (ResultOkVoid.default_ slot).is_err = true ∧
      (ResultOkVoid.default_ slot).unwrap =
        { stderr := "Error: Attempted unwrap of not-ok Result!\n",
          outcome := Outcome.exit EXIT_FAILURE }) ∧
    ((ResultOkVoid.of_ok v).is_ok = false ∧
      (ResultOkVoid.of_ok v).is_err = true ∧
      (ResultOkVoid.of_ok v).unwrap =
        { stderr := "Error: Attempted unwrap of not-ok Result!\n",
          outcome := Outcome.exit EXIT_FAILURE }) ∧
    (∀ x : V, (ResultOkVoid.default_ slot).unwrap.outcome ≠ Outcome.ret x ∧
      (ResultOkVoid.of_ok v).unwrap.outcome ≠ Outcome.ret x) := by
  have hmsg : not_ok_message ++ endl = "Error: Attempted unwrap of not-ok Result!\n" := by
    decide
  refine ⟨⟨rfl, rfl, ?_⟩, ⟨rfl, rfl, ?_⟩, ?_⟩
  · simp [ResultOkVoid.unwrap, ResultOkVoid.default_, hmsg]
  · simp [ResultOkVoid.unwrap, ResultOkVoid.of_ok, hmsg]
  · intro x
    simp [ResultOkVoid.unwrap, ResultOkVoid.default_, ResultOkVoid.of_ok]

/-! ## `safediv` and `safedivadd` -/

/-- The payload `safediv` builds on a zero divisor, written out. -/
theorem division_by_zero_payload (file : String) :
    (error_impl file 8 "Division by zero!").err =
      "Error @ " ++ file ++ ":8: Division by zero!\n" := by
  have h : (error_impl file 8 "Division by zero!").err =
      "Error @ " ++ file ++ ":" ++ "8" ++ ": " ++ "Division by zero!" ++ "\n" := rfl
  rw [h]
  simp only [String.append_assoc]
  rfl

/-- On a zero divisor `safediv` returns the error Result of its `verify`. -/
theorem safediv_zero (file : String) (a : Int) :
    safediv file a 0 =
      Eval.value (Result.of_err (error_impl file 8 "Division by zero!").err) :=
  rfl

/-- On a non-zero divisor `safediv` goes on to `return a / b;`. -/
theorem safediv_of_ne_zero (file : String) (a b : Int) (hb : b ≠ 0) :
    safediv file a b =
      Flow.call ((Flow.of_eval (int_result (Int.tdiv a b))).bind fun q =>
        Flow.ret (Result.of_ok q)) := by
  simp [safediv, verify, hb, Flow.bind, int_div]

/-- On a non-zero divisor with a representable quotient `safediv` returns the
quotient as an ok Result. -/
theorem safediv_of_representable (file : String) (a b : Int) (hb : b ≠ 0)
    (hq : INT_MIN ≤ Int.tdiv a b ∧ Int.tdiv a b ≤ INT_MAX) :
    safediv file a b = Eval.value (Result.of_ok (Int.tdiv a b)) := by
  rw [safediv_of_ne_zero file a b hb]
  simp [int_result, hq, Flow.of_eval, Flow.bind, Flow.call]

/-- On a zero divisor `safedivadd` returns what `safediv` returns. -/
theorem safedivadd_zero (file : String) (a c : Int) :
    safedivadd file a 0 c =
      Eval.value (Result.of_err (error_impl file 8 "Division by zero!").err) :=
  rfl

/-- C12: for a non-zero divisor whose quotient is representable in `int`,
`safediv(a, b)` returns an ok Result holding the quotient truncated toward
zero (its magnitude is the integer part of the quotient of the magnitudes),
and `unwrap()` on it returns that quotient and writes nothing; `safediv(1, 2)`
is ok with value `0`. -/
theorem C12_safediv_returns_quotient (file : String) (a b : Int) (hb : b ≠ 0)
    (hq : INT_MIN ≤ Int.tdiv a b ∧ Int.tdiv a b ≤ INT_MAX) :
    safediv file a b = Eval.value (Result.of_ok (Int.tdiv a b)) ∧
    (Result.of_ok (Int.tdiv a b) : Result Int String).is_ok = true ∧
    (Result.of_ok (Int.tdiv a b) : Result Int String).ok = Eval.value (Int.tdiv a b) ∧
    unwrap_call (safediv file a b) =
      { stderr := "", outcome := Outcome.ret (Int.tdiv a b) } ∧
    safediv file 1 2 = Eval.value (Result.of_ok 0) ∧
    unwrap_call (safediv file 1 2) = { stderr := "", outcome := Outcome.ret 0 } ∧
    (Int.tdiv a b).natAbs = a.natAbs / b.natAbs := by
  have h := safediv_of_representable file a b hb hq
  refine ⟨h, rfl, rfl, ?_, rfl, rfl, Int.natAbs_tdiv a b⟩
  rw [h]
  rfl

/-- Witness of C12 at `safediv(-7, 2)`: the quotient is `-3`, truncated toward
zero. -/
theorem C12_safediv_returns_quotient_witness :
    (2 : Int) ≠ 0 ∧ (INT_MIN ≤ Int.tdiv (-7) 2 ∧ Int.tdiv (-7) 2 ≤ INT_MAX) ∧
    safediv "main.cpp" (-7) 2 = Eval.value (Result.of_ok (-3)) ∧
    unwrap_call (safediv "main.cpp" (-7) 2) =
      { stderr := "", outcome := Outcome.ret (-3) } :=
  have h := C12_safediv_returns_quotient "main.cpp" (-7) 2 (by decide) (by decide)
  ⟨by decide, by decide, h.1, h.2.2.2.1⟩

/-- C13: for every `a`, `safediv(a, 0)` returns an error Result; its message is
`Error @ <file>:8: Division by zero!` with a newline, which contains
`Division by zero!`; the statements after the `verify` do not run; `unwrap()`
on it writes that message and ends in `exit(EXIT_FAILURE)`. -/
theorem C13_safediv_zero_divisor (file : String) (a : Int) :
    safediv file a 0 =
      Eval.value (Result.of_err ("Error @ " ++ file ++ ":8: Division by zero!\n")) ∧
    (Result.of_err ("Error @ " ++ file ++ ":8: Division by zero!\n") :
      Result Int String).is_err = true ∧
    contains_text ("Error @ " ++ file ++ ":8: Division by zero!\n") "Division by zero!" ∧
    (∀ rest : Unit → Flow (Result Int String) Empty,
      (verify (decide ((0 : Int) ≠ 0)) file 8 (VaArgs.plain "Division by zero!")).bind rest =
        Flow.ret (Result.of_err ("Error @ " ++ file ++ ":8: Division by zero!\n"))) ∧
    unwrap_call (safediv file a 0) =
      { stderr := "Error @ " ++ file ++ ":8: Division by zero!\n",
        outcome := Outcome.exit EXIT_FAILURE } ∧
    EXIT_FAILURE ≠ EXIT_SUCCESS := by
  have hp := division_by_zero_payload file
  have hs : safediv file a 0 =
      Eval.value (Result.of_err ("Error @ " ++ file ++ ":8: Division by zero!\n")) := by
    rw [safediv_zero, hp]
  refine ⟨hs, rfl, ?_, ?_, ?_, by decide⟩
  · refine ⟨"Error @ " ++ file ++ ":8: ", "\n", ?_⟩
    simp only [String.append_assoc]
    rfl
  · intro rest
    rw [← hp]
    rfl
  · rw [hs]
    rfl

/-- C14: for a non-zero divisor, with the quotient and the sum representable in
`int`, `safedivadd(a, b, c)` returns an ok Result holding `(a / b) + c`, where
`a / b` is the value of `safediv(a, b)`; `safedivadd(1, 2, 1)` is ok with
value `1`. -/
theorem C14_safedivadd_returns_sum (file : String) (a b c : Int) (hb : b ≠ 0)
    (hq : INT_MIN ≤ Int.tdiv a b ∧ Int.tdiv a b ≤ INT_MAX)
    (hs : INT_MIN ≤ Int.tdiv a b + c ∧ Int.tdiv a b + c ≤ INT_MAX) :
    safediv file a b = Eval.value (Result.of_ok (Int.tdiv a b)) ∧
    safedivadd file a b c = Eval.value (Result.of_ok (Int.tdiv a b + c)) ∧
    (Result.of_ok (Int.tdiv a b + c) : Result Int String).is_ok = true ∧
    safedivadd file 1 2 1 = Eval.value (Result.of_ok 1) := by
  have h := safediv_of_representable file a b hb hq
  refine ⟨h, ?_, rfl, rfl⟩
  unfold safedivadd
  rw [h]
  simp [Flow.of_eval, Flow.bind, Flow.call, try_, Result.is_err, Result.ok, Result.of_ok,
    Variant.holds_second, Variant.get_first, int_add, int_result, hs]

/-- Witness of C14 at `safedivadd(-7, 2, 10)`: the value is `-3 + 10 = 7`. -/
theorem C14_safedivadd_returns_sum_witness :
    (2 : Int) ≠ 0 ∧ (INT_MIN ≤ Int.tdiv (-7) 2 ∧ Int.tdiv (-7) 2 ≤ INT_MAX) ∧
    (INT_MIN ≤ Int.tdiv (-7) 2 + 10 ∧ Int.tdiv (-7) 2 + 10 ≤ INT_MAX) ∧
    safedivadd "main.cpp" (-7) 2 10 = Eval.value (Result.of_ok 7) :=
  have h := C14_safedivadd_returns_sum "main.cpp" (-7) 2 10 (by decide) (by decide)
    (by decide)
  ⟨by decide, by decide, by decide, h.2.1⟩

/-- A common prefix of two equal texts can be removed. -/
theorem string_append_left_cancel (s t u : String) (h : s ++ t = s ++ u) : t = u := by
  have hd := congrArg String.data h
  rw [String.data_append, String.data_append] at hd
  exact String.ext (List.append_cancel_left hd)

/-- The payload `error_impl` builds, with the text after the file name grouped. -/
theorem error_impl_err_grouped (file : String) (n : Int) (m : String) :
    (error_impl file n m).err =
      "Error @ " ++ (file ++ (":" ++ toString n ++ ": " ++ m ++ "\n")) := by
  have h : (error_impl file n m).err =
      "Error @ " ++ file ++ ":" ++ toString n ++ ": " ++ m ++ "\n" := rfl
  rw [h]
  simp only [String.append_assoc]

/-- Payloads built for the same file and message at lines whose texts differ
are different. -/
theorem error_impl_err_line_ne (file : String) (n k : Int) (m : String)
    (hnk : ":" ++ toString n ++ ": " ++ m ++ "\n" ≠ ":" ++ toString k ++ ": " ++ m ++ "\n") :
    (error_impl file n m).err ≠ (error_impl file k m).err := by
  intro h
  rw [error_impl_err_grouped, error_impl_err_grouped] at h
  exact hnk (string_append_left_cancel _ _ _ (string_append_left_cancel _ _ _ h))

/-- C15: for all `a` and `c`, `safedivadd(a, 0, c)` returns an error Result
whose payload is the payload of `safediv(a, 0)`: the payload built at line 8 of
the file, inside `safediv`, containing `Division by zero!`; it is not a payload
built at one of the lines 12-15 of `safedivadd`; the statements after the
`try_` (the addition of `c`) do not run. -/
theorem C15_safedivadd_forwards_error (file : String) (a c : Int) :
    safedivadd file a 0 c = safediv file a 0 ∧
    safedivadd file a 0 c =
      Eval.value (Result.of_err ("Error @ " ++ file ++ ":8: Division by zero!\n")) ∧
    (Result.of_err ("Error @ " ++ file ++ ":8: Division by zero!\n") :
      Result Int String).is_err = true ∧
    (Result.of_err ("Error @ " ++ file ++ ":8: Division by zero!\n") :
      Result Int String).err = Eval.value (error_impl file 8 "Division by zero!").err ∧
    contains_text ("Error @ " ++ file ++ ":8: Division by zero!\n") "Division by zero!" ∧
    contains_text ("Error @ " ++ file ++ ":8: Division by zero!\n") (file ++ ":8:") ∧
    ((error_impl file 8 "Division by zero!").err ≠
        (error_impl file 12 "Division by zero!").err ∧
      (error_impl file 8 "Division by zero!").err ≠
        (error_impl file 13 "Division by zero!").err ∧
      (error_impl file 8 "Division by zero!").err ≠
        (error_impl file 14 "Division by zero!").err ∧
      (error_impl file 8 "Division by zero!").err ≠
        (error_impl file 15 "Division by zero!").err) ∧
    (∀ rest : Int → Flow (Result Int String) Empty,
      Flow.call (((Flow.of_eval (safediv file a 0)).bind fun r => try_ r).bind rest) =
        Eval.value (Result.of_err ("Error @ " ++ file ++ ":8: Division by zero!\n"))) := by
  have hp := division_by_zero_payload file
  refine ⟨rfl, ?_, rfl, ?_, ?_, ?_, ⟨?_, ?_, ?_, ?_⟩, ?_⟩
  · rw [safedivadd_zero, hp]
  · rw [hp]
    rfl
  · refine ⟨"Error @ " ++ file ++ ":8: ", "\n", ?_⟩
    simp only [String.append_assoc]
    rfl
  · refine ⟨"Error @ ", " Division by zero!\n", ?_⟩
    simp only [String.append_assoc]
    rfl
  · exact error_impl_err_line_ne file 8 12 _ (by decide)
  · exact error_impl_err_line_ne file 8 13 _ (by decide)
  · exact error_impl_err_line_ne file 8 14 _ (by decide)
  · exact error_impl_err_line_ne file 8 15 _ (by decide)
  · intro rest
    rw [← hp]
    rfl

/-! ## Extraction of the side that is not held -/

/-- C17 as stated fails in the (V, E) shape: `Result<int>("boom")` has
`is_ok()` false, and `ok()` on it returns no value; `std::get<Ok>` throws
`std::bad_variant_access`. -/
theorem C17_ok_on_err_throws_counterexample :
    (Result.of_err "boom" : Result Int String).is_ok = false ∧
    (Result.of_err "boom" : Result Int String).ok = Eval.throws Fault.bad_variant_access ∧
    ¬ ∃ v : Int, (Result.of_err "boom" : Result Int String).ok = Eval.value v := by
  refine ⟨rfl, rfl, ?_⟩
  rintro ⟨v, hv⟩
  cases hv

/-- C17 amended: in the (V, unit) shape `ok()` returns the member `_ok`
whatever the discriminant (the value passed to the constructor, or whatever
default-initialisation left in the member), and in the (unit, E) shape `err()`
returns the member `_err` whatever the discriminant; these calls always
return. In the (V, E) shape extraction is checked: `ok()` on a Result that is
not ok throws `std::bad_variant_access`, and so does `err()`, at
`Err = std::string`, on a Result that is not err. -/
theorem C17_wrong_side_extraction {V E : Type} (r : Result V E) (rs : Result V String)
    (v slot : V) (e eslot : E) (b : Bool)
    (hr : r.is_ok = false) (hrs : rs.is_err = false) :
    r.ok = Eval.throws Fault.bad_variant_access ∧
    rs.err = Eval.throws Fault.bad_variant_access ∧
    ({ _is_ok := b, _ok := v } : ResultOkVoid V).ok = v ∧
    ((ResultOkVoid.of_ok v).is_ok = false ∧ (ResultOkVoid.of_ok v).ok = v) ∧
    ((ResultOkVoid.default_ slot).is_ok = false ∧ (ResultOkVoid.default_ slot).ok = slot) ∧
    ({ _is_ok := b, _err := e } : ResultVoidErr E).err = e ∧
    ((ResultVoidErr.default_ eslot).is_err = false ∧
      (ResultVoidErr.default_ eslot).err = eslot) := by
  refine ⟨?_, ?_, rfl, ⟨rfl, rfl⟩, ⟨rfl, rfl⟩, rfl, ⟨rfl, rfl⟩⟩
  · cases r with
    | mk repr =>
      cases repr with
      | first x => simp [Result.is_ok, Variant.holds_first] at hr
      | second e => rfl
  · cases rs with
    | mk repr =>
      cases repr with
      | first x => rfl
      | second e => simp [Result.is_err, Variant.holds_second] at hrs

/-- Witness of C17 amended at `Result<int>("boom")` and `Result<int>(7)`. -/
theorem C17_wrong_side_extraction_witness :
    (Result.of_err "boom" : Result Int String).is_ok = false ∧
    (Result.of_ok 7 : Result Int String).is_err = false ∧
    (Result.of_err "boom" : Result Int String).ok = Eval.throws Fault.bad_variant_access ∧
    (Result.of_ok 7 : Result Int String).err = Eval.throws Fault.bad_variant_access ∧
    (ResultOkVoid.of_ok (7 : Int)).ok = 7 ∧
    (ResultVoidErr.default_ "").err = "" :=
  have h := C17_wrong_side_extraction (Result.of_err "boom" : Result Int String)
    (Result.of_ok 7 : Result Int String) (7 : Int) 0 "" "" true rfl rfl
  ⟨rfl, rfl, h.1, h.2.1, h.2.2.2.1.2, h.2.2.2.2.2.2.2⟩

/-! ## Hard-abort reporters -/

/-- When `vfprintf` writes `m` for the call: `here_verify` with a true
condition writes nothing and returns; with a false condition it writes
`Error @ <f>:<n>: <m>` and a newline and ends in `exit(EXIT_FAILURE)`.
`here_error` and `todo` write `Error @ <f>:<n>: <m>`, respectively
`TODO @ <f>:<n>: <m>`, then a newline, and end in `exit(EXIT_FAILURE)`. -/
theorem hard_abort_reporters_of_formatted {α : Type} (c : Bool) (f : String) (n : Nat)
    (va : VaArgs) (m : String) (hcall : vformat va va.selected = Eval.value m) :
    here_verify c f n va =
      (if c then { stderr := "", outcome := Outcome.ret () }
       else { stderr := "Error @ " ++ f ++ ":" ++ toString n ++ ": " ++ m ++ "\n",
              outcome := Outcome.exit EXIT_FAILURE }) ∧
    (here_error f n va : Run α) =
      { stderr := "Error @ " ++ f ++ ":" ++ toString n ++ ": " ++ m ++ "\n",
        outcome := Outcome.exit EXIT_FAILURE } ∧
    (todo f n va : Run α) =
      { stderr := "TODO @ " ++ f ++ ":" ++ toString n ++ ": " ++ m ++ "\n",
        outcome := Outcome.exit EXIT_FAILURE } := by
  have he : ∀ β : Type, (here_error f n va : Run β) = here_error_impl f n m := by
    intro β
    cases h : va.lone_null_constant <;>
      simp [here_error, here_error_impl_variadic, here_error_impl_va_list,
        VaArgs.selected, h] at hcall ⊢ <;> simp [hcall]
  have ht : (todo f n va : Run α) = todo_impl f n m := by
    cases h : va.lone_null_constant <;>
      simp [todo, todo_impl_variadic, todo_impl_va_list, VaArgs.selected, h] at hcall ⊢ <;>
      simp [hcall]
  refine ⟨?_, ?_, ?_⟩
  · cases c
    · simp only [here_verify, Bool.not_false, if_true, he]
      rfl
    · rfl
  · rw [he]
    rfl
  · rw [ht]
    rfl

/-- C18 at the failing input: `here_error("value %d", 0)`,
`here_verify(false, "value %d", 0)` and `todo("value %d", 0)` at `main.cpp:30`.
The lone `0` is a null pointer constant, so the calls select the `va_list`
overloads; the location is written, then `vfprintf` reads an argument from a
null list. The text written is the location alone and the run does not end in
`exit(EXIT_FAILURE)`, where the claim has the whole line
`Error @ main.cpp:30: value 0` and the exit. -/
theorem C18_reporters_lone_null_write_location_only :
    (here_error "main.cpp" 30
        { message := "value 0", reads_argument := true, lone_null_constant := true } :
      Run Unit) =
      { stderr := "Error @ main.cpp:30: ",
        outcome := Outcome.thrown Fault.undefined_behaviour } ∧
    here_verify false "main.cpp" 30
        { message := "value 0", reads_argument := true, lone_null_constant := true } =
      { stderr := "Error @ main.cpp:30: ",
        outcome := Outcome.thrown Fault.undefined_behaviour } ∧
    (todo "main.cpp" 30
        { message := "value 0", reads_argument := true, lone_null_constant := true } :
      Run Unit) =
      { stderr := "TODO @ main.cpp:30: ",
        outcome := Outcome.thrown Fault.undefined_behaviour } ∧
    here_verify false "main.cpp" 30
        { message := "value 0", reads_argument := true, lone_null_constant := true } ≠
      { stderr := "Error @ main.cpp:30: value 0\n", outcome := Outcome.exit EXIT_FAILURE } ∧
    here_verify true "main.cpp" 30
        { message := "value 0", reads_argument := true, lone_null_constant := true } =
      { stderr := "", outcome := Outcome.ret () } := by
  decide

/-! ## The `error` statement expression -/

/-- The Result `error_impl` returns is err for every file, line and message,
so the assertion of the `error` statement expression holds. When the formatter
produces `m` for the call, the expression makes the enclosing function return
an error Result carrying the payload of `error_impl`; it neither aborts on the
assertion nor yields a value. The same holds for `verify` with a false
condition. -/
theorem error_always_returns_of_formatted {W α : Type} (f : String) (n : Int)
    (va : VaArgs) (m : String) (hcall : vformat va va.selected = Eval.value m) :
    (error_impl f n m).is_err = true ∧
    ((error f n va : Flow (Result W String) α) =
        Flow.ret (Result.of_err (error_impl f n m).err) ∧
      (error f n va : Flow (Result W String) α) ≠ Flow.fault Fault.assertion_failed ∧
      (∀ x : α, (error f n va : Flow (Result W String) α) ≠ Flow.val x)) ∧
    ((error f n va : Flow (ResultVoidErr String) α) =
        Flow.ret (ResultVoidErr.of_err (error_impl f n m).err) ∧
      (error f n va : Flow (ResultVoidErr String) α) ≠ Flow.fault Fault.assertion_failed ∧
      (∀ x : α, (error f n va : Flow (ResultVoidErr String) α) ≠ Flow.val x)) ∧
    ((Result.of_err (error_impl f n m).err : Result W String).is_err = true ∧
      (Result.of_err (error_impl f n m).err : Result W String).err =
        Eval.value (error_impl f n m).err) ∧
    ((ResultVoidErr.of_err (error_impl f n m).err).is_err = true ∧
      (ResultVoidErr.of_err (error_impl f n m).err).err = (error_impl f n m).err) ∧
    (verify false f n va : Flow (Result W String) Unit) =
      Flow.ret (Result.of_err (error_impl f n m).err) ∧
    (verify false f n va : Flow (ResultVoidErr String) Unit) =
      Flow.ret (ResultVoidErr.of_err (error_impl f n m).err) := by
  have h1 : ∀ β : Type, (error f n va : Flow (Result W String) β) =
      Flow.ret (Result.of_err (error_impl f n m).err) :=
    fun β => error_of_formatted f n va m hcall
  have h2 : ∀ β : Type, (error f n va : Flow (ResultVoidErr String) β) =
      Flow.ret (ResultVoidErr.of_err (error_impl f n m).err) :=
    fun β => error_of_formatted f n va m hcall
  refine ⟨rfl, ⟨h1 α, ?_, ?_⟩, ⟨h2 α, ?_, ?_⟩, ⟨rfl, rfl⟩, ⟨rfl, rfl⟩, ?_, ?_⟩
  · rw [h1 α]
    intro h
    cases h
  · intro x
    rw [h1 α]
    intro h
    cases h
  · rw [h2 α]
    intro h
    cases h
  · intro x
    rw [h2 α]
    intro h
    cases h
  · simp only [verify, Bool.not_false, if_true]
    exact h1 Unit
  · simp only [verify, Bool.not_false, if_true]
    exact h2 Unit

/-- C19 at the failing input: `error("value %d", 0)` at `main.cpp:8` in a
function returning `Result<int>`. The Result of `error_impl` would be err, so
the assertion is not what fails; but the lone `0` is a null pointer constant,
the call selects the `va_list` overload of `error_impl`, and `vasprintf` reads
an argument from a null list before any Result exists. The enclosing function
does not return an error Result, where the claim has every execution of
`error(...)` return one carrying the payload of `error_impl`. -/
theorem C19_error_lone_null_returns_no_result :
    error_impl_call "main.cpp" 8
        { message := "value 0", reads_argument := true, lone_null_constant := true } =
      Eval.throws Fault.undefined_behaviour ∧
    (error "main.cpp" 8
        { message := "value 0", reads_argument := true, lone_null_constant := true } :
      Flow (Result Int String) Unit) = Flow.fault Fault.undefined_behaviour ∧
    (error "main.cpp" 8
        { message := "value 0", reads_argument := true, lone_null_constant := true } :
      Flow (Result Int String) Unit) ≠
      Flow.ret (Result.of_err (error_impl "main.cpp" 8 "value 0").err) ∧
    (verify false "main.cpp" 8
        { message := "value 0", reads_argument := true, lone_null_constant := true } :
      Flow (Result Int String) Unit) = Flow.fault Fault.undefined_behaviour ∧
    (error_impl "main.cpp" 8 "value 0").is_err = true := by
  decide

/-! ## `safediv` and `safedivadd` fail exactly on a zero divisor -/

/-- On a non-zero divisor `safediv` returns an ok Result or, when the quotient
is not representable, no Result. -/
theorem safediv_cases_of_ne_zero (file : String) (a b : Int) (hb : b ≠ 0) :
    safediv file a b = Eval.value (Result.of_ok (Int.tdiv a b)) ∨
      safediv file a b = Eval.throws Fault.undefined_behaviour := by
  by_cases hq : INT_MIN ≤ Int.tdiv a b ∧ Int.tdiv a b ≤ INT_MAX
  · exact Or.inl (safediv_of_representable file a b hb hq)
  · right
    rw [safediv_of_ne_zero file a b hb]
    simp [int_result, hq, Flow.of_eval, Flow.bind, Flow.call]

/-- On a non-zero divisor `safedivadd` returns an ok Result or no Result. -/
theorem safedivadd_cases_of_ne_zero (file : String) (a b c : Int) (hb : b ≠ 0) :
    (∃ s : Int, safedivadd file a b c = Eval.value (Result.of_ok s)) ∨
      safedivadd file a b c = Eval.throws Fault.undefined_behaviour := by
  rcases safediv_cases_of_ne_zero file a b hb with h | h
  · by_cases hs : INT_MIN ≤ Int.tdiv a b + c ∧ Int.tdiv a b + c ≤ INT_MAX
    · left
      refine ⟨Int.tdiv a b + c, ?_⟩
      unfold safedivadd
      rw [h]
      simp [Flow.of_eval, Flow.bind, Flow.call, try_, Result.is_err, Result.ok,
        Result.of_ok, Variant.holds_second, Variant.get_first, int_add, int_result, hs]
    · right
      unfold safedivadd
      rw [h]
      simp [Flow.of_eval, Flow.bind, Flow.call, try_, Result.is_err, Result.ok,
        Result.of_ok, Variant.holds_second, Variant.get_first, int_add, int_result, hs]
  · right
    unfold safedivadd
    rw [h]
    rfl

/-- C20: for all `a`, `b`, `c`, `safediv(a, b)` returns a Result that is err
if and only if `b = 0`, and `safedivadd(a, b, c)` returns a Result that is err
if and only if `safediv(a, b)` does. Whenever the calls return Results, the
same equivalences hold of their `is_err()`. -/
theorem C20_fail_iff_zero_divisor (file : String) (a b c : Int) :
    ((∃ r, safediv file a b = Eval.value r ∧ r.is_err = true) ↔ b = 0) ∧
    ((∃ r, safedivadd file a b c = Eval.value r ∧ r.is_err = true) ↔
      (∃ r, safediv file a b = Eval.value r ∧ r.is_err = true)) ∧
    (∀ r, safediv file a b = Eval.value r → (r.is_err = true ↔ b = 0)) ∧
    (∀ r r₂, safediv file a b = Eval.value r → safedivadd file a b c = Eval.value r₂ →
      (r₂.is_err = true ↔ r.is_err = true)) := by
  by_cases hb : b = 0
  · subst hb
    have h1 := safediv_zero file a
    have h2 := safedivadd_zero file a c
    refine ⟨?_, ?_, ?_, ?_⟩
    · exact ⟨fun _ => rfl, fun _ => ⟨_, h1, rfl⟩⟩
    · exact ⟨fun _ => ⟨_, h1, rfl⟩, fun _ => ⟨_, h2, rfl⟩⟩
    · intro r hr
      rw [h1] at hr
      cases hr
      exact ⟨fun _ => rfl, fun _ => rfl⟩
    · intro r r₂ hr hr₂
      rw [h1] at hr
      rw [h2] at hr₂
      cases hr
      cases hr₂
      exact Iff.rfl
  · have hd : ∀ r, safediv file a b = Eval.value r → r.is_err = false := by
      intro r hr
      rcases safediv_cases_of_ne_zero file a b hb with h | h
      · rw [h] at hr
        cases hr
        rfl
      · rw [h] at hr
        cases hr
    have ha : ∀ r, safedivadd file a b c = Eval.value r → r.is_err = false := by
      intro r hr
      rcases safedivadd_cases_of_ne_zero file a b c hb with ⟨s, h⟩ | h
      · rw [h] at hr
        cases hr
        rfl
      · rw [h] at hr
        cases hr
    refine ⟨?_, ?_, ?_, ?_⟩
    · constructor
      · rintro ⟨r, hr, he⟩
        rw [hd r hr] at he
        cases he
      · intro h
        exact absurd h hb
    · constructor
      · rintro ⟨r, hr, he⟩
        rw [ha r hr] at he
        cases he
      · rintro ⟨r, hr, he⟩
        rw [hd r hr] at he
        cases he
    · intro r hr
      rw [hd r hr]
      simp [hb]
    · intro r r₂ hr hr₂
      rw [hd r hr, ha r₂ hr₂]

/-! ## The text `unwrap` writes on an err Result -/

/-- A decimal digit is not a line terminator. -/
theorem digitChar_ne_newline (d : Nat) (hd : d < 10) : Nat.digitChar d ≠ '\n' := by
  interval_cases d <;> decide

/-- The digits of a number hold no line terminator. -/
theorem toDigitsCore_no_newline (fuel : Nat) :
    ∀ (n : Nat) (ds : List Char), '\n' ∉ ds → '\n' ∉ Nat.toDigitsCore 10 fuel n ds := by
  induction fuel with
  | zero =>
    intro n ds h
    simpa [Nat.toDigitsCore] using h
  | succ k ih =>
    intro n ds h
    have hcons : '\n' ∉ Nat.digitChar (n % 10) :: ds := by
      intro hm
      rcases List.mem_cons.mp hm with h1 | h1
      · exact digitChar_ne_newline (n % 10) (Nat.mod_lt n (by decide)) h1.symm
      · exact h h1
    unfold Nat.toDigitsCore
    by_cases h0 : n / 10 = 0
    · simpa [h0] using hcons
    · simp only [h0, if_false]
      exact ih _ _ hcons

/-- The text of `<< n` for a natural number holds no line terminator. -/
theorem nat_toString_no_newline (n : Nat) : '\n' ∉ (toString n).data := by
  show '\n' ∉ (Nat.toDigits 10 n).asString.data
  exact toDigitsCore_no_newline _ _ _ (by simp)

/-- The text of `<< line` for an `int` holds no line terminator. -/
theorem int_toString_no_newline (n : Int) : '\n' ∉ (toString n).data := by
  cases n with
  | ofNat k => exact nat_toString_no_newline k
  | negSucc k =>
    show '\n' ∉ ("-" ++ toString (Nat.succ k)).data
    rw [String.data_append]
    intro hm
    rcases List.mem_append.mp hm with h1 | h1
    · revert h1
      decide
    · exact nat_toString_no_newline _ h1

/-- Two texts without a line terminator append to one without. -/
theorem no_newline_append (s t : String) (hs : '\n' ∉ s.data) (ht : '\n' ∉ t.data) :
    '\n' ∉ (s ++ t).data := by
  rw [String.data_append]
  intro hm
  rcases List.mem_append.mp hm with h | h
  · exact hs h
  · exact ht h

/-- A text without a line terminator, followed by one, is one line. -/
theorem one_line_append_newline (body : String) (h : '\n' ∉ body.data) :
    one_line (body ++ "\n") = true := by
  have h1 : ("\n" : String).data = ['\n'] := rfl
  unfold one_line
  rw [String.data_append, h1, List.getLast?_concat, List.count_append,
    List.count_eq_zero_of_not_mem h]
  rfl

/-- The payload of `error_impl` is one line when the file name and the message
hold no line terminator. -/
theorem error_impl_err_one_line (f : String) (n : Int) (m : String)
    (hf : '\n' ∉ f.data) (hm : '\n' ∉ m.data) :
    one_line ("Error @ " ++ f ++ ":" ++ toString n ++ ": " ++ m ++ "\n") = true := by
  apply one_line_append_newline
  apply no_newline_append _ _ _ hm
  apply no_newline_append _ _ _ (by decide)
  apply no_newline_append _ _ _ (int_toString_no_newline n)
  apply no_newline_append _ _ _ (by decide)
  exact no_newline_append _ _ (by decide) hf

/-- C16 as stated fails: `Result<int>("boom")` is err and `unwrap()` writes
`boom`, the payload alone; the text has no line terminator, so it is not one
line, and it names no file or line. -/
theorem C16_unwrap_writes_bare_payload_counterexample :
    (Result.of_err "boom" : Result Int String).is_err = true ∧
    (Result.of_err "boom" : Result Int String).unwrap =
      { stderr := "boom", outcome := Outcome.exit EXIT_FAILURE } ∧
    one_line (Result.of_err "boom" : Result Int String).unwrap.stderr = false := by
  decide

/-- C16 amended: on an err Result `unwrap()` writes, in the (V, unit) and
(unit, unit) shapes, the one line `Error: Attempted unwrap of not-ok Result!`;
in the (V, E) and (unit, E) shapes with a `std::string` payload, the stored
payload and nothing else. When the payload is the one `error_impl` built from
a file name and a message without line terminator, the text written is exactly
one line, `Error @ <file>:<line>: <message>` and its terminator: it holds the
file and line of the originating error construction and the message. -/
theorem C16_unwrap_err_text {V : Type} (r : Result V String) (q : ResultOkVoid V)
    (u : ResultVoidErr String) (w : ResultVoidVoid) (e f : String) (n : Int) (m : String)
    (hr : r.is_err = true) (hq : q.is_err = true) (hu : u.is_err = true)
    (hw : w.is_err = true) (hf : '\n' ∉ f.data) (hm : '\n' ∉ m.data) :
    (q.unwrap.stderr = "Error: Attempted unwrap of not-ok Result!\n" ∧
      w.unwrap.stderr = "Error: Attempted unwrap of not-ok Result!\n" ∧
      one_line "Error: Attempted unwrap of not-ok Result!\n" = true) ∧
    ((∃ p, r.err = Eval.value p ∧ r.unwrap.stderr = p) ∧
      u.unwrap.stderr = u.err ∧
      (Result.of_err e : Result V String).unwrap.stderr = e ∧
      (ResultVoidErr.of_err e).unwrap.stderr = e) ∧
    ((error_impl f n m).unwrap.stderr =
        "Error @ " ++ f ++ ":" ++ toString n ++ ": " ++ m ++ "\n" ∧
      (Result.of_err (error_impl f n m).err : Result V String).unwrap.stderr =
        "Error @ " ++ f ++ ":" ++ toString n ++ ": " ++ m ++ "\n" ∧
      one_line ("Error @ " ++ f ++ ":" ++ toString n ++ ": " ++ m ++ "\n") = true ∧
      contains_text ("Error @ " ++ f ++ ":" ++ toString n ++ ": " ++ m ++ "\n")
        (f ++ ":" ++ toString n) ∧
      contains_text ("Error @ " ++ f ++ ":" ++ toString n ++ ": " ++ m ++ "\n") m) := by
  have hq' : q._is_ok = false := by simpa [ResultOkVoid.is_err] using hq
  have hu' : u._is_ok = false := by simpa [ResultVoidErr.is_err] using hu
  have hw' : w._is_ok = false := by simpa [ResultVoidVoid.is_err] using hw
  refine ⟨⟨?_, ?_, by decide⟩, ⟨?_, ?_, rfl, rfl⟩, ⟨rfl, rfl, ?_, ?_, ?_⟩⟩
  · simp [ResultOkVoid.unwrap, hq', not_ok_message, endl]
  · simp [ResultVoidVoid.unwrap, hw', not_ok_message, endl]
  · obtain ⟨p, hp⟩ := Result.exists_second_of_is_err r hr
    refine ⟨p, by simp [Result.err, hp, Variant.get_second], ?_⟩
    simp [Result.unwrap, hp, Variant.holds_second, Variant.get_second, Insertable.text]
  · simp [ResultVoidErr.unwrap, ResultVoidErr.err, hu', Insertable.text]
  · exact error_impl_err_one_line f n m hf hm
  · refine ⟨"Error @ ", ": " ++ m ++ "\n", ?_⟩
    simp only [String.append_assoc]
  · refine ⟨"Error @ " ++ f ++ ":" ++ toString n ++ ": ", "\n", ?_⟩
    simp only [String.append_assoc]

/-- Witness of C16 amended: `Result<int>("boom")`, the default-constructed
`Result<int, void>`, `Result<void>("boom")`, `Result<void, void>(false)`, and
the payload of `safediv` on a zero divisor in `main.cpp`. -/
theorem C16_unwrap_err_text_witness :
    (Result.of_err "boom" : Result Int String).is_err = true ∧
    (ResultOkVoid.default_ (0 : Int)).is_err = true ∧
    (ResultVoidErr.of_err "boom").is_err = true ∧
    (ResultVoidVoid.of_bool false).is_err = true ∧
    '\n' ∉ ("main.cpp" : String).data ∧ '\n' ∉ ("Division by zero!" : String).data ∧
    (ResultVoidErr.of_err "boom").unwrap.stderr = "boom" ∧
    (error_impl "main.cpp" 8 "Division by zero!").unwrap.stderr =
      "Error @ main.cpp:8: Division by zero!\n" ∧
    one_line "Error @ main.cpp:8: Division by zero!\n" = true :=
  have h := C16_unwrap_err_text (Result.of_err "boom" : Result Int String)
    (ResultOkVoid.default_ (0 : Int)) (ResultVoidErr.of_err "boom")
    (ResultVoidVoid.of_bool false) "boom" "main.cpp" 8 "Division by zero!" rfl rfl rfl rfl
    (by decide) (by decide)
  ⟨rfl, rfl, rfl, rfl, by decide, by decide, h.2.1.2.1, h.2.2.1, h.2.2.2.2.1⟩

/-- Witness of C20 at the calls of `main.cpp`: divisor `2` gives ok Results,
divisor `0` gives err Results. -/
theorem C20_fail_iff_zero_divisor_witness :
    safediv "main.cpp" 1 2 = Eval.value (Result.of_ok 0) ∧
    safedivadd "main.cpp" 1 2 1 = Eval.value (Result.of_ok 1) ∧
    ((Result.of_ok 1 : Result Int String).is_err = true ↔
      (Result.of_ok 0 : Result Int String).is_err = true) ∧
    ((∃ r, safediv "main.cpp" 1 0 = Eval.value r ∧ r.is_err = true) ↔ (0 : Int) = 0) :=
  ⟨rfl, rfl,
    (C20_fail_iff_zero_divisor "main.cpp" 1 2 1).2.2.2 (Result.of_ok 0) (Result.of_ok 1)
      rfl rfl,
    (C20_fail_iff_zero_divisor "main.cpp" 1 0 1).1⟩

end ErrorH
